import Mathlib

/-!
Shallow embedding of the WeatherFlow UDP listener (`listen.py`).

The program decodes JSON envelopes broadcast by a weather-station hub and
forwards decoded records to sinks (console raw/decoded printing, MQTT
publish, InfluxDB write).  We model:

  * JSON values as they occur on this wire protocol (`Scalar`, `PVal`):
    numbers (exact rationals), strings, flat arrays, and arrays of arrays —
    the only shapes the source ever indexes into;
  * Python dictionary/key access and list indexing as `Except`-valued
    operations that can fail with `KeyError`/`IndexError`/`TypeError`;
  * each `process_*` function of the source as a function from the parsed
    command-line arguments (`Args`) and an envelope to the ordered list of
    observable side effects (`Effect`) it performs, paired with an
    `Except`-result describing whether it raised;
  * the per-envelope behaviour of the consumer loop (`reporter_task`)
    (`consume_one`) including its blanket exception swallowing, and the
    producer/consumer FIFO queue as a small transition system.

Console formatting details of the decoded human-readable summary are a
collaborator outside the core (spec §1, §6); the decoded print is modelled
as one opaque effect carrying the decoded record.  Connection parameters of
the MQTT/InfluxDB clients are likewise collaborator details; the publishes
are modelled by effects carrying topic/measurement and payload.
-/

/-- A scalar JSON value of the protocol: a number (exact rational) or a string. -/
inductive Scalar where
  | num (q : Rat)
  | str (s : String)
  deriving DecidableEq

/-- A JSON value as this protocol uses them: a scalar, a flat array of
scalars (`evt`, `ob`, `radio_stats`), or an array of arrays of scalars
(`obs`). -/
inductive PVal where
  | scalar (v : Scalar)
  | arr1 (l : List Scalar)
  | arr2 (l : List (List Scalar))
  deriving DecidableEq

def pvStr (s : String) : PVal := .scalar (.str s)

def pvNum (q : Rat) : PVal := .scalar (.num q)

/-- A decoded JSON envelope: the outer JSON object, as a key/value list. -/
abbrev Envelope := List (String × PVal)

/-- A decoded record, built up by the `process_*` functions as a Python dict
(key/value pairs in insertion order). -/
abbrev Record := List (String × PVal)

/-- Python exceptions that the modelled code can raise. -/
inductive PyErr where
  | keyError (key : String)
  | indexError
  | typeError
  | valueError
  deriving DecidableEq

/-- `d[k]` on a Python dict: the value, or `KeyError`. -/
def dictGet (d : Envelope) (k : String) : Except PyErr PVal :=
  match d.find? (fun p => p.1 == k) with
  | some p => .ok p.2
  | none => .error (.keyError k)

/-- `v[i]` on a JSON value: list indexing (`IndexError` when out of range),
`TypeError` when the value is not subscriptable. -/
def PVal.index : PVal → Nat → Except PyErr PVal
  | .scalar _, _ => .error .typeError
  | .arr1 l, i =>
      match l[i]? with
      | some v => .ok (.scalar v)
      | none => .error .indexError
  | .arr2 l, i =>
      match l[i]? with
      | some row => .ok (.arr1 row)
      | none => .error .indexError

/-- Does the character list begin with `pat`? -/
def charsStartWith : List Char → List Char → Bool
  | [], _ => true
  | _ :: _, [] => false
  | a :: as, b :: bs => a == b && charsStartWith as bs

/-- Does the character list contain `pat` as a contiguous run? -/
def charsContain (pat : List Char) : List Char → Bool
  | [] => pat.isEmpty
  | b :: t => charsStartWith pat (b :: t) || charsContain pat t

/-- The Python test `pat in hay` on strings: substring containment. -/
def pyIn (pat hay : String) : Bool := charsContain pat.toList hay.toList

/-- `s` begins with `pat` (used to state prefix-based properties). -/
def strStartsWith (s pat : String) : Bool := charsStartWith pat.toList s.toList

/-- The Python test `x in v` where `x` is a string and `v` a JSON value:
substring test on strings, membership on lists, `TypeError` on numbers. -/
def pyInVal (pat : String) : PVal → Except PyErr Bool
  | .scalar (.str s) => .ok (pyIn pat s)
  | .scalar (.num _) => .error .typeError
  | .arr1 l => .ok (l.contains (.str pat))
  | .arr2 _ => .ok false  -- a string never equals an inner list

/-- Python truthiness of an optional string argument (`None` and `""` are falsy). -/
def truthy : Option String → Bool
  | none => false
  | some s => !(s == "")

/-- The underlying string of an optional argument (only consulted when truthy). -/
def optStr : Option String → String
  | none => ""
  | some s => s

/-- Python `int(...)` applied to a JSON value: truncation toward zero for
numbers, digit-string parsing for strings (sign/whitespace forms are not
modelled; no claim depends on them), `TypeError` otherwise. -/
def digitsVal (l : List Char) : Option Nat :=
  if l.isEmpty then none
  else
    l.foldl
      (fun acc c =>
        match acc with
        | none => none
        | some n => if c.isDigit then some (10 * n + (c.toNat - 48)) else none)
      (some 0)

def pyInt : PVal → Except PyErr Int
  | .scalar (.num q) => .ok (Int.tdiv q.num (Int.ofNat q.den))
  | .scalar (.str s) =>
      match digitsVal s.toList with
      | some n => .ok (Int.ofNat n)
      | none => .error .valueError
  | _ => .error .typeError

/-- The run configuration after argument parsing (`args` in the source),
restricted to the fields the processing pipeline reads.  `mqtt_host` and
`mqtt_toplevel` are `MQTT_HOST` / `MQTT_TOPLEVEL_TOPIC` after the
`--mqtt_broker` / `--mqtt_topic` overrides. -/
structure Args where
  raw : Bool
  decoded : Bool
  syslog : Bool
  limit : Option String
  exclude : Option String
  indent : Bool
  mqtt : Bool
  mqtt_multisensor : Bool
  no_pub : Bool
  influxdb : Bool
  verbose : Bool
  mqtt_host : String
  mqtt_toplevel : String
  deriving DecidableEq

/-- One point written to InfluxDB by `influxdb_publish`:
`measurement = event`, `time = data["timestamp"]`, `fields = data`,
written with one-second time precision. -/
structure InfluxPoint where
  measurement : String
  time : PVal
  fields : Record
  precision : String
  deriving DecidableEq

/-- The observable side effects of the processing pipeline, in program order. -/
inductive Effect where
  /-- `print_raw(data)`: the raw envelope echoed to stdout (compact or indented). -/
  | rawPrint (data : Envelope)
  /-- the decoded one-line summary printed when `--decoded` is set
  (console formatting is a collaborator; the record is carried opaquely). -/
  | decodedPrint (kind : String) (record : Record)
  /-- the verbose echo of the dequeued envelope in `reporter_task`. -/
  | verbosePrint (data : Envelope)
  /-- the unconditional `"publishing to mqtt://host/topic"` print of `mqtt_publish`. -/
  | mqttNotice (host topic : String)
  /-- with `--no_pub`: the sorted-keys JSON dump printed instead of publishing. -/
  | mqttDump (payload : Record)
  /-- `publish.single(topic, payload=json.dumps(data, sort_keys=True), ...)`. -/
  | mqttSend (topic : String) (payload : Record)
  /-- the verbose print of `influxdb_publish` before writing. -/
  | influxNotice (measurement : String)
  /-- `client.write_points([payload])` with one-second time precision. -/
  | influxPub (point : InfluxPoint)
  /-- the `"Failed to connect to InfluxDB"` error print when building the
  point raises (e.g. the record has no `timestamp`). -/
  | influxFail (measurement : String)
  /-- `print("ERROR: unknown data type in", data)`. -/
  | unknownTypePrint (data : Envelope)
  /-- `loginf("unknown data type in " + json.dumps(data, sort_keys=True))`. -/
  | syslogUnknown (data : Envelope)
  deriving DecidableEq

/-- Key order used by `json.dumps(..., sort_keys=True)`: code-point
lexicographic order on the key strings. -/
def charsLt : List Char → List Char → Bool
  | [], [] => false
  | [], _ :: _ => true
  | _ :: _, [] => false
  | a :: as, b :: bs => a.toNat < b.toNat || (a == b && charsLt as bs)

def strLtKey (a b : String) : Bool := charsLt a.toList b.toList

def insertByKey (p : String × PVal) : List (String × PVal) → List (String × PVal)
  | [] => [p]
  | q :: t => if strLtKey p.1 q.1 then p :: q :: t else q :: insertByKey p t

/-- The key-sorted view of a record, as `json.dumps(..., sort_keys=True)`
serialises it. -/
def sortKeys (l : Record) : Record := l.foldr insertByKey []

-- ----------------
-- Record Model: the two lookup tables (lines 352 and 444-455).

def precip_type : List String := ["none", "rain", "hail"]

def decode_sensor_status_err_text : List (Nat × String) :=
  [(0x001, "lightning failed"),
   (0x002, "lignthing noise"),
   (0x004, "lightning disturber"),
   (0x008, "pressure failed"),
   (0x010, "temperature failed"),
   (0x020, "rh failed"),
   (0x040, "wind failed"),
   (0x080, "precip failed"),
   (0x100, "light/uv failed")]

def decode_sensor_status_ok_text : Nat × String := (0x000, "sensors ok")

/-- One iteration of the `for x in decode_sensor_status_err_text` loop body. -/
def sensor_flag_step (idata : Nat) (descr : String) (x : Nat × String) : String :=
  if Nat.land x.1 idata = x.1 then
    (if descr.length > 0 then descr ++ ", " else descr) ++ x.2
  else descr

/-- `decode_sensor_status` (lines 458-471).  The source receives text and
converts with `int(text)`; we model the resulting non-negative mask. -/
def decode_sensor_status (idata : Nat) : String :=
  if decode_sensor_status_ok_text.1 = idata then decode_sensor_status_ok_text.2
  else decode_sensor_status_err_text.foldl (sensor_flag_step idata) ""

/-- The descriptions of the set defined bits, in table (= ascending bit) order. -/
def selDescrs (idata : Nat) (l : List (Nat × String)) : List String :=
  (l.filter (fun x => Nat.land x.1 idata == x.1)).map Prod.snd

/-- Comma-separated join, as the loop in `decode_sensor_status` builds it. -/
def joinCommaSep : List String → String
  | [] => ""
  | [d] => d
  | d :: e :: rest => d ++ ", " ++ joinCommaSep (e :: rest)

/-- Helper: the tail of a comma-join (each element preceded by `", "`). -/
def commaPre : List String → String
  | [] => ""
  | d :: rest => ", " ++ d ++ commaPre rest

-- ----------------
-- Sink helpers.

/-- `mqtt_publish(mqtt_host, mqtt_topic, data)` (lines 620-653): prints the
notice, then either dumps (with `--no_pub`) or publishes the sorted-keys
JSON payload.  Broker connection parameters and auth are collaborator
details outside the modelled interface. -/
def mqtt_publish (args : Args) (topic : String) (data : Record) : List Effect :=
  [Effect.mqttNotice args.mqtt_host topic] ++
    (if args.no_pub then [Effect.mqttDump (sortKeys data)]
     else [Effect.mqttSend topic (sortKeys data)])

/-- `influxdb_publish(event, data)` (lines 592-615): builds one point with
`measurement = event`, `time = data["timestamp"]`, `fields = data`, and
writes it with one-second time precision.  A missing `timestamp` raises inside
the `try`, landing in the failure print; client connection details are a
collaborator. -/
def influxdb_publish (args : Args) (event : String) (data : Record) : List Effect :=
  match dictGet data "timestamp" with
  | .ok ts =>
      (if args.verbose then [Effect.influxNotice event] else []) ++
        [Effect.influxPub ⟨event, ts, data, "s"⟩]
  | .error _ => [Effect.influxFail event]

/-- Topic namespacing: `"sensors/" + serial_number + "/" + topic` in
multisensor mode (string concatenation demands a string serial). -/
def topicFor (args : Args) (base : String) (serial : PVal) : Except PyErr String :=
  if args.mqtt_multisensor then
    match serial with
    | .scalar (.str s) => .ok ("sensors/" ++ s ++ "/" ++ base)
    | _ => .error .typeError
  else .ok base

-- ----------------
-- Field extraction for each record kind.  Each mirrors the straight-line
-- dict assignments of the corresponding `process_*` function; the source
-- re-evaluates `data["obs"][0]` on every line, with identical results, so
-- it is read once here.

def build_evt_precip (data : Envelope) : Except PyErr (PVal × Record) := do
  let serial ← dictGet data "serial_number"
  let evt ← dictGet data "evt"
  let ts ← evt.index 0
  .ok (serial, [("timestamp", ts)])

def build_evt_strike (data : Envelope) : Except PyErr (PVal × Record) := do
  let serial ← dictGet data "serial_number"
  let evt ← dictGet data "evt"
  let ts ← evt.index 0
  let di ← evt.index 1
  let en ← evt.index 2
  .ok (serial, [("timestamp", ts), ("distance", di), ("energy", en)])

def build_rapid_wind (data : Envelope) : Except PyErr (PVal × Record) := do
  let serial ← dictGet data "serial_number"
  let ob ← dictGet data "ob"
  let ts ← ob.index 0
  let sp ← ob.index 1
  let di ← ob.index 2
  .ok (serial, [("timestamp", ts), ("speed", sp), ("direction", di)])

/-- The positional reads `data["obs"][0][0..7]` of `process_obs_air`. -/
def obs_air_fields (row : PVal) : Except PyErr Record := do
  let ts ← row.index 0
  let sp ← row.index 1
  let tc ← row.index 2
  let rh ← row.index 3
  let lc ← row.index 4
  let ld ← row.index 5
  let ba ← row.index 6
  let ri ← row.index 7
  .ok [("timestamp", ts), ("station_pressure", sp), ("temperature", tc),
       ("relative_humidity", rh), ("lightning_strike_count", lc),
       ("lightning_strike_avg_distance", ld), ("battery", ba),
       ("report_interval", ri)]

def build_obs_air (data : Envelope) : Except PyErr (PVal × Record) := do
  let serial ← dictGet data "serial_number"
  let obs ← dictGet data "obs"
  let row ← obs.index 0
  let fields ← obs_air_fields row
  let fw ← dictGet data "firmware_revision"
  .ok (serial, fields ++ [("firmware_revision", fw)])

/-- The positional reads `data["obs"][0][0..13]` of `process_obs_sky`. -/
def obs_sky_fields (row : PVal) : Except PyErr Record := do
  let ts ← row.index 0
  let il ← row.index 1
  let uv ← row.index 2
  let ra ← row.index 3
  let wl ← row.index 4
  let wa ← row.index 5
  let wg ← row.index 6
  let wd ← row.index 7
  let ba ← row.index 8
  let ri ← row.index 9
  let sr ← row.index 10
  let lr ← row.index 11
  let pt ← row.index 12
  let ws ← row.index 13
  .ok [("timestamp", ts), ("illuminance", il), ("uv", uv),
       ("rain_accumulated", ra), ("wind_lull", wl), ("wind_avg", wa),
       ("wind_gust", wg), ("wind_direction", wd), ("battery", ba),
       ("report_interval", ri), ("solar_radiation", sr),
       ("local_rain_day_accumulation", lr), ("precipitation_type", pt),
       ("wind_sample_interval", ws)]

def build_obs_sky (data : Envelope) : Except PyErr (PVal × Record) := do
  let serial ← dictGet data "serial_number"
  let obs ← dictGet data "obs"
  let row ← obs.index 0
  let fields ← obs_sky_fields row
  let fw ← dictGet data "firmware_revision"
  .ok (serial, fields ++ [("firmware_revision", fw)])

/-- The positional reads `data["obs"][0][0..17]` of `process_obs_st`. -/
def obs_st_fields (row : PVal) : Except PyErr Record := do
  let ts ← row.index 0
  let wl ← row.index 1
  let wa ← row.index 2
  let wg ← row.index 3
  let wd ← row.index 4
  let ws ← row.index 5
  let sp ← row.index 6
  let tc ← row.index 7
  let rh ← row.index 8
  let il ← row.index 9
  let uv ← row.index 10
  let sr ← row.index 11
  let ra ← row.index 12
  let pt ← row.index 13
  let ld ← row.index 14
  let lc ← row.index 15
  let ba ← row.index 16
  let ri ← row.index 17
  .ok [("timestamp", ts), ("wind_lull", wl), ("wind_avg", wa),
       ("wind_gust", wg), ("wind_direction", wd),
       ("wind_sample_interval", ws), ("station_pressure", sp),
       ("temperature", tc), ("relative_humidity", rh),
       ("illuminance", il), ("uv", uv), ("solar_radiation", sr),
       ("rain_accumulated", ra), ("precipitation_type", pt),
       ("lightning_strike_avg_distance", ld),
       ("lightning_strike_count", lc), ("battery", ba),
       ("report_interval", ri)]

def build_obs_st (data : Envelope) : Except PyErr (PVal × Record) := do
  let serial ← dictGet data "serial_number"
  let obs ← dictGet data "obs"
  let row ← obs.index 0
  let fields ← obs_st_fields row
  let fw ← dictGet data "firmware_revision"
  .ok (serial, fields ++ [("firmware_revision", fw)])

/-- The `if "AR-" in ... / elif "SK-" in ... / elif "ST-" in ...` chain of
`process_device_status` (lines 480-487), for a string serial number.
Note: the source tests substring containment, not a prefix. -/
def classify_device (serial : String) : String :=
  if pyIn "AR-" serial then "air"
  else if pyIn "SK-" serial then "sky"
  else if pyIn "ST-" serial then "tempest"
  else "unknown_type"

/-- The same chain on the raw JSON value of `data["serial_number"]`
(Python `in` raises `TypeError` on numbers). -/
def device_type_of (serial : PVal) : Except PyErr String := do
  if (← pyInVal "AR-" serial) then .ok "air"
  else if (← pyInVal "SK-" serial) then .ok "sky"
  else if (← pyInVal "ST-" serial) then .ok "tempest"
  else .ok "unknown_type"

def build_device_status (data : Envelope) :
    Except PyErr (PVal × String × Record) := do
  let serial ← dictGet data "serial_number"
  let device_type ← device_type_of serial
  let ts ← dictGet data "timestamp"
  let up ← dictGet data "uptime"
  let vo ← dictGet data "voltage"
  let fw ← dictGet data "firmware_revision"
  let rs ← dictGet data "rssi"
  let hr ← dictGet data "hub_rssi"
  let ss ← dictGet data "sensor_status"
  let db ← dictGet data "debug"
  .ok (serial, device_type,
    [("device", pvStr device_type), ("timestamp", ts), ("uptime", up),
     ("voltage", vo), ("firmware_revision", fw), ("rssi", rs),
     ("hub_rssi", hr), ("sensor_status", ss), ("debug", db)])

def build_hub_status (data : Envelope) : Except PyErr (PVal × Record) := do
  let serial ← dictGet data "serial_number"
  let fwv ← dictGet data "firmware_revision"
  let fwi ← pyInt fwv
  let up ← dictGet data "uptime"
  let rs ← dictGet data "rssi"
  let ts ← dictGet data "timestamp"
  let rf ← dictGet data "reset_flags"
  let sq ← dictGet data "seq"
  let rstats ← dictGet data "radio_stats"
  let v0 ← rstats.index 0
  let v1 ← rstats.index 1
  let v2 ← rstats.index 2
  let v3 ← rstats.index 3
  let v4 ← rstats.index 4
  .ok (serial,
    [("device", pvStr "hub"), ("firmware_revision", pvNum (Int.cast fwi)),
     ("uptime", up), ("rssi", rs), ("timestamp", ts),
     ("reset_flags", rf), ("seq", sq), ("radio_stats_version", v0),
     ("reboot_count", v1), ("i2c_bus_error_count", v2),
     ("radio_status", v3), ("radio_network_id", v4)])

-- ----------------
-- The `process_*` functions.  Each begins with the two filter
-- early-returns (exclude checked first, then limit), then the optional raw
-- print, field extraction, optional decoded print, topic construction,
-- and the optional MQTT / InfluxDB publishes.

def process_evt_precip (args : Args) (data : Envelope) :
    List Effect × Except PyErr Unit :=
  if truthy args.exclude && pyIn "evt_precip" (optStr args.exclude) then ([], .ok ())
  else if truthy args.limit && !(pyIn "evt_precip" (optStr args.limit)) then ([], .ok ())
  else
    let rawEffs := if args.raw then [Effect.rawPrint data] else []
    match build_evt_precip data with
    | .error e => (rawEffs, .error e)
    | .ok (serial, record) =>
      let decEffs := if args.decoded then [Effect.decodedPrint "evt_precip" record] else []
      match topicFor args (args.mqtt_toplevel ++ "/evt/precip") serial with
      | .error e => (rawEffs ++ decEffs, .error e)
      | .ok topic =>
        let mq := if args.mqtt then mqtt_publish args topic record else []
        let ifx := if args.influxdb then influxdb_publish args topic record else []
        (rawEffs ++ decEffs ++ mq ++ ifx, .ok ())

def process_evt_strike (args : Args) (data : Envelope) :
    List Effect × Except PyErr Unit :=
  if truthy args.exclude && pyIn "evt_strike" (optStr args.exclude) then ([], .ok ())
  else if truthy args.limit && !(pyIn "evt_strike" (optStr args.limit)) then ([], .ok ())
  else
    let rawEffs := if args.raw then [Effect.rawPrint data] else []
    match build_evt_strike data with
    | .error e => (rawEffs, .error e)
    | .ok (serial, record) =>
      let decEffs := if args.decoded then [Effect.decodedPrint "evt_strike" record] else []
      match topicFor args (args.mqtt_toplevel ++ "/evt/strike") serial with
      | .error e => (rawEffs ++ decEffs, .error e)
      | .ok topic =>
        let mq := if args.mqtt then mqtt_publish args topic record else []
        let ifx := if args.influxdb then influxdb_publish args topic record else []
        (rawEffs ++ decEffs ++ mq ++ ifx, .ok ())

def process_rapid_wind (args : Args) (data : Envelope) :
    List Effect × Except PyErr Unit :=
  if truthy args.exclude && pyIn "rapid_wind" (optStr args.exclude) then ([], .ok ())
  else if truthy args.limit && !(pyIn "rapid_wind" (optStr args.limit)) then ([], .ok ())
  else
    let rawEffs := if args.raw then [Effect.rawPrint data] else []
    match build_rapid_wind data with
    | .error e => (rawEffs, .error e)
    | .ok (serial, record) =>
      let decEffs := if args.decoded then [Effect.decodedPrint "rapid_wind" record] else []
      match topicFor args (args.mqtt_toplevel ++ "/rapid_wind") serial with
      | .error e => (rawEffs ++ decEffs, .error e)
      | .ok topic =>
        let mq := if args.mqtt then mqtt_publish args topic record else []
        let ifx := if args.influxdb then influxdb_publish args topic record else []
        (rawEffs ++ decEffs ++ mq ++ ifx, .ok ())

def process_obs_air (args : Args) (data : Envelope) :
    List Effect × Except PyErr Unit :=
  if truthy args.exclude && pyIn "obs_air" (optStr args.exclude) then ([], .ok ())
  else if truthy args.limit && !(pyIn "obs_air" (optStr args.limit)) then ([], .ok ())
  else
    let rawEffs := if args.raw then [Effect.rawPrint data] else []
    match build_obs_air data with
    | .error e => (rawEffs, .error e)
    | .ok (serial, record) =>
      let decEffs := if args.decoded then [Effect.decodedPrint "obs_air" record] else []
      match topicFor args (args.mqtt_toplevel ++ "/obs_air") serial with
      | .error e => (rawEffs ++ decEffs, .error e)
      | .ok topic =>
        let mq := if args.mqtt then mqtt_publish args topic record else []
        let ifx := if args.influxdb then influxdb_publish args topic record else []
        (rawEffs ++ decEffs ++ mq ++ ifx, .ok ())

def process_obs_sky (args : Args) (data : Envelope) :
    List Effect × Except PyErr Unit :=
  if truthy args.exclude && pyIn "obs_sky" (optStr args.exclude) then ([], .ok ())
  else if truthy args.limit && !(pyIn "obs_sky" (optStr args.limit)) then ([], .ok ())
  else
    let rawEffs := if args.raw then [Effect.rawPrint data] else []
    match build_obs_sky data with
    | .error e => (rawEffs, .error e)
    | .ok (serial, record) =>
      let decEffs := if args.decoded then [Effect.decodedPrint "obs_sky" record] else []
      match topicFor args (args.mqtt_toplevel ++ "/obs_sky") serial with
      | .error e => (rawEffs ++ decEffs, .error e)
      | .ok topic =>
        let mq := if args.mqtt then mqtt_publish args topic record else []
        let ifx := if args.influxdb then influxdb_publish args topic record else []
        (rawEffs ++ decEffs ++ mq ++ ifx, .ok ())

def process_obs_st (args : Args) (data : Envelope) :
    List Effect × Except PyErr Unit :=
  if truthy args.exclude && pyIn "obs_st" (optStr args.exclude) then ([], .ok ())
  else if truthy args.limit && !(pyIn "obs_st" (optStr args.limit)) then ([], .ok ())
  else
    let rawEffs := if args.raw then [Effect.rawPrint data] else []
    match build_obs_st data with
    | .error e => (rawEffs, .error e)
    | .ok (serial, record) =>
      let decEffs := if args.decoded then [Effect.decodedPrint "obs_st" record] else []
      match topicFor args (args.mqtt_toplevel ++ "/obs_st") serial with
      | .error e => (rawEffs ++ decEffs, .error e)
      | .ok topic =>
        let mq := if args.mqtt then mqtt_publish args topic record else []
        let ifx := if args.influxdb then influxdb_publish args topic record else []
        (rawEffs ++ decEffs ++ mq ++ ifx, .ok ())

/-- The three undocumented debug types are carried opaquely: after the two
filter checks, the only effect is the optional raw print (lines 413-428). -/
def process_light_debug (args : Args) (data : Envelope) :
    List Effect × Except PyErr Unit :=
  if truthy args.exclude && pyIn "light_debug" (optStr args.exclude) then ([], .ok ())
  else if truthy args.limit && !(pyIn "light_debug" (optStr args.limit)) then ([], .ok ())
  else ((if args.raw then [Effect.rawPrint data] else []), .ok ())

def process_wind_debug (args : Args) (data : Envelope) :
    List Effect × Except PyErr Unit :=
  if truthy args.exclude && pyIn "wind_debug" (optStr args.exclude) then ([], .ok ())
  else if truthy args.limit && !(pyIn "wind_debug" (optStr args.limit)) then ([], .ok ())
  else ((if args.raw then [Effect.rawPrint data] else []), .ok ())

def process_rain_debug (args : Args) (data : Envelope) :
    List Effect × Except PyErr Unit :=
  if truthy args.exclude && pyIn "rain_debug" (optStr args.exclude) then ([], .ok ())
  else if truthy args.limit && !(pyIn "rain_debug" (optStr args.limit)) then ([], .ok ())
  else ((if args.raw then [Effect.rawPrint data] else []), .ok ())

def process_device_status (args : Args) (data : Envelope) :
    List Effect × Except PyErr Unit :=
  if truthy args.exclude && pyIn "device_status" (optStr args.exclude) then ([], .ok ())
  else if truthy args.limit && !(pyIn "device_status" (optStr args.limit)) then ([], .ok ())
  else
    let rawEffs := if args.raw then [Effect.rawPrint data] else []
    match build_device_status data with
    | .error e => (rawEffs, .error e)
    | .ok (serial, device_type, record) =>
      let decEffs := if args.decoded then [Effect.decodedPrint "device_status" record] else []
      match topicFor args (args.mqtt_toplevel ++ "/status/" ++ device_type) serial with
      | .error e => (rawEffs ++ decEffs, .error e)
      | .ok topic =>
        let mq := if args.mqtt then mqtt_publish args topic record else []
        -- line 529: the InfluxDB measurement for this kind is the literal
        -- string "device_status", not the MQTT topic
        let ifx := if args.influxdb then influxdb_publish args "device_status" record else []
        (rawEffs ++ decEffs ++ mq ++ ifx, .ok ())

def process_hub_status (args : Args) (data : Envelope) :
    List Effect × Except PyErr Unit :=
  if truthy args.exclude && pyIn "hub_status" (optStr args.exclude) then ([], .ok ())
  else if truthy args.limit && !(pyIn "hub_status" (optStr args.limit)) then ([], .ok ())
  else
    let rawEffs := if args.raw then [Effect.rawPrint data] else []
    match build_hub_status data with
    | .error e => (rawEffs, .error e)
    | .ok (serial, record) =>
      let decEffs := if args.decoded then [Effect.decodedPrint "hub_status" record] else []
      match topicFor args (args.mqtt_toplevel ++ "/status_hub") serial with
      | .error e => (rawEffs ++ decEffs, .error e)
      | .ok topic =>
        let mq := if args.mqtt then mqtt_publish args topic record else []
        let ifx := if args.influxdb then influxdb_publish args topic record else []
        (rawEffs ++ decEffs ++ mq ++ ifx, .ok ())

-- ----------------
-- The consumer dispatch (`report_it`, lines 718-758).

/-- The `if data["type"] == ... / elif ... / else` chain once `data["type"]`
is known to be the string `t`.  The `else` branch prints the error and
optionally syslogs it. -/
def dispatch_type (args : Args) (t : String) (data : Envelope) :
    List Effect × Except PyErr Unit :=
  if t == "evt_precip" then process_evt_precip args data
  else if t == "evt_strike" then process_evt_strike args data
  else if t == "rapid_wind" then process_rapid_wind args data
  else if t == "obs_air" then process_obs_air args data
  else if t == "obs_sky" then process_obs_sky args data
  else if t == "obs_st" then process_obs_st args data
  else if t == "device_status" then process_device_status args data
  else if t == "hub_status" then process_hub_status args data
  else if t == "wind_debug" then process_wind_debug args data
  else if t == "light_debug" then process_light_debug args data
  else if t == "rain_debug" then process_rain_debug args data
  else
    ([Effect.unknownTypePrint data] ++
       (if args.syslog then [Effect.syslogUnknown data] else []), .ok ())

/-- `report_it(data)`.  `data["type"]` is evaluated by the first comparison:
a missing key raises `KeyError` there, before anything is printed; a
non-string `type` compares unequal to every name and reaches the `else`
error report. -/
def report_it (args : Args) (data : Envelope) : List Effect × Except PyErr Unit :=
  match dictGet data "type" with
  | .error e => ([], .error e)
  | .ok (.scalar (.str t)) => dispatch_type args t data
  | .ok _ =>
      ([Effect.unknownTypePrint data] ++
         (if args.syslog then [Effect.syslogUnknown data] else []), .ok ())

/-- The eleven recognised `type` names, in dispatch order. -/
def recognized_types : List String :=
  ["evt_precip", "evt_strike", "rapid_wind", "obs_air", "obs_sky", "obs_st",
   "device_status", "hub_status", "wind_debug", "light_debug", "rain_debug"]

-- ----------------
-- The consumer loop.

/-- What `reporter_task` does with one dequeued envelope: the optional
verbose echo, then `report_it`.  The surrounding bare `try/except: pass`
catches any exception `report_it` raises, so only the effects already
performed remain and the loop proceeds to the next envelope. -/
def consume_one (args : Args) (data : Envelope) : List Effect :=
  (if args.verbose then [Effect.verbosePrint data] else []) ++
    (report_it args data).1

/-- The cumulative consumer effects over a queue of envelopes: each is
dequeued and handled in order; an exception aborts only that envelope and its
handling (the outer `while 1` re-enters the drain loop). -/
def drain (args : Args) : List Envelope → List Effect
  | [] => []
  | d :: rest => consume_one args d ++ drain args rest

-- ----------------
-- The producer/consumer hand-off (`listener_task` puts, `reporter_task`
-- gets; `queue.Queue` is FIFO).  `pending` holds envelopes the listener has
-- parsed but not yet enqueued, `queue` the `Queue` contents, `processed`
-- the envelopes the consumer has dequeued, in dequeue order.

structure PipeState where
  pending : List Envelope
  queue : List Envelope
  processed : List Envelope
  deriving DecidableEq

/-- One scheduler step: the listener enqueues its next envelope
(`q.put(data)`), or the consumer dequeues the head (`q.get()`). -/
inductive PipeStep : PipeState → PipeState → Prop
  | put (e : Envelope) (p q r : List Envelope) :
      PipeStep ⟨e :: p, q, r⟩ ⟨p, q ++ [e], r⟩
  | get (e : Envelope) (p q r : List Envelope) :
      PipeStep ⟨p, e :: q, r⟩ ⟨p, q, r ++ [e]⟩

/-- Reachability under arbitrary interleaving of the two threads. -/
inductive PipeReach : PipeState → PipeState → Prop
  | refl (s : PipeState) : PipeReach s s
  | step {s t u : PipeState} : PipeStep s t → PipeReach t u → PipeReach s u

-- ----------------
-- Derived notions used to state the claims.

/-- The filter decision exactly as the source orders it: the exclude filter
is checked first (`process_*` line 1), then the limit filter (line 2). -/
def filteredOut_code (args : Args) (t : String) : Bool :=
  if truthy args.exclude && pyIn t (optStr args.exclude) then true
  else if truthy args.limit && !(pyIn t (optStr args.limit)) then true
  else false

/-- The filter decision in the order the specification words it: the limit
(allow-list) filter applied first, then the exclude filter. -/
def filteredOut_spec (args : Args) (t : String) : Bool :=
  if truthy args.limit && !(pyIn t (optStr args.limit)) then true
  else if truthy args.exclude && pyIn t (optStr args.exclude) then true
  else false

/-- The InfluxDB points among a list of effects. -/
def influxPoints (l : List Effect) : List InfluxPoint :=
  l.filterMap (fun e =>
    match e with
    | .influxPub p => some p
    | _ => none)

-- ----------------
-- Concrete configurations and envelopes used by counterexamples and
-- witnesses.

/-- All options off; default broker host and top-level topic. -/
def args0 : Args :=
  { raw := false, decoded := false, syslog := false, limit := none,
    exclude := none, indent := false, mqtt := false,
    mqtt_multisensor := false, no_pub := false, influxdb := false,
    verbose := false, mqtt_host := "mqtt", mqtt_toplevel := "wf" }

def argsSyslog : Args := { args0 with syslog := true }

def argsMqtt : Args := { args0 with mqtt := true }

def argsInflux : Args := { args0 with influxdb := true }

/-- Raw printing on and both publishing sinks enabled. -/
def argsRawSinks : Args := { args0 with raw := true, mqtt := true, influxdb := true }

/-- An envelope with no `type` field at all. -/
def envNoType : Envelope := [("serial_number", pvStr "ST-00001234")]

/-- An envelope whose `type` matches none of the eleven names. -/
def envUnknownType : Envelope :=
  [("type", pvStr "obs_mystery"), ("serial_number", pvStr "ST-00001234")]

/-- The end-to-end `rapid_wind` envelope of the specification. -/
def envRapidWind : Envelope :=
  [("type", pvStr "rapid_wind"), ("serial_number", pvStr "ST-00001234"),
   ("hub_sn", pvStr "HB-1"),
   ("ob", PVal.arr1 [.num 1600000000, .num 2.5, .num 180])]

/-- An `obs_st` envelope whose first inner sequence has one element of the
eighteen the variant requires. -/
def envShortObsSt : Envelope :=
  [("type", pvStr "obs_st"), ("serial_number", pvStr "ST-00001234"),
   ("hub_sn", pvStr "HB-1"), ("obs", PVal.arr2 [[.num 1600000000]]),
   ("firmware_revision", pvNum 134)]

/-- A complete `obs_air` envelope. -/
def envObsAir : Envelope :=
  [("serial_number", pvStr "AR-00004049"), ("type", pvStr "obs_air"),
   ("hub_sn", pvStr "HB-00000001"),
   ("obs", PVal.arr2
      [[.num 1600000000, .num 1017, .num 22, .num 55, .num 0, .num 0,
        .num 3, .num 1]]),
   ("firmware_revision", pvNum 17)]

/-- The `obs_air` record decoded from `envObsAir`. -/
def recObsAir : Record :=
  [("timestamp", pvNum 1600000000), ("station_pressure", pvNum 1017),
   ("temperature", pvNum 22), ("relative_humidity", pvNum 55),
   ("lightning_strike_count", pvNum 0),
   ("lightning_strike_avg_distance", pvNum 0), ("battery", pvNum 3),
   ("report_interval", pvNum 1), ("firmware_revision", pvNum 17)]

/-- A complete `device_status` envelope (air unit). -/
def envDeviceStatus : Envelope :=
  [("serial_number", pvStr "AR-00001234"), ("type", pvStr "device_status"),
   ("hub_sn", pvStr "HB-00000001"), ("timestamp", pvNum 1600000000),
   ("uptime", pvNum 1000), ("voltage", pvNum 3.5),
   ("firmware_revision", pvNum 17), ("rssi", pvNum (-50)),
   ("hub_rssi", pvNum (-60)), ("sensor_status", pvNum 0),
   ("debug", pvNum 0)]

/-- The record decoded from `envDeviceStatus`. -/
def recDeviceStatus : Record :=
  [("device", pvStr "air"), ("timestamp", pvNum 1600000000),
   ("uptime", pvNum 1000), ("voltage", pvNum 3.5),
   ("firmware_revision", pvNum 17), ("rssi", pvNum (-50)),
   ("hub_rssi", pvNum (-60)), ("sensor_status", pvNum 0),
   ("debug", pvNum 0)]

/-- A debug-type envelope. -/
def envLightDebug : Envelope :=
  [("type", pvStr "light_debug"), ("serial_number", pvStr "SK-00001234"),
   ("hub_sn", pvStr "HB-1"), ("debug", pvStr "0,1,2,3")]

/-- Every sink enabled but `--limit obs_air` configured. -/
def argsLimitObsAir : Args :=
  { args0 with limit := some "obs_air", raw := true, decoded := true,
               mqtt := true, influxdb := true }

/-- Every sink enabled but `--exclude obs_air` configured. -/
def argsExcludeObsAir : Args :=
  { args0 with exclude := some "obs_air", raw := true, decoded := true,
               mqtt := true, influxdb := true }

/-- A `device_status` envelope whose serial number merely contains `"AR-"`
without beginning with it. -/
def envDeviceWeirdSerial : Envelope :=
  [("serial_number", pvStr "XXAR-1"), ("type", pvStr "device_status"),
   ("hub_sn", pvStr "HB-00000001"), ("timestamp", pvNum 1600000000),
   ("uptime", pvNum 1000), ("voltage", pvNum 3.5),
   ("firmware_revision", pvNum 17), ("rssi", pvNum (-50)),
   ("hub_rssi", pvNum (-60)), ("sensor_status", pvNum 0),
   ("debug", pvNum 0)]

/-- Distinct envelopes for the FIFO-ordering witness. -/
def envA : Envelope := [("type", pvStr "evt_precip")]

def envB : Envelope := [("type", pvStr "rapid_wind")]

def envC : Envelope := [("type", pvStr "hub_status")]

-- ----------------
-- Helper lemmas.

theorem joinCommaSep_cons (rest : List String) :
    ∀ d : String, joinCommaSep (d :: rest) = d ++ commaPre rest := by
  induction rest with
  | nil => intro d; simp [joinCommaSep, commaPre, String.append_empty]
  | cons e rest ih =>
      intro d
      rw [joinCommaSep, commaPre, ih e, String.append_assoc,
          String.append_assoc]

theorem selDescrs_cons (n : Nat) (x : Nat × String) (l : List (Nat × String)) :
    selDescrs n (x :: l) =
      if Nat.land x.1 n = x.1 then x.2 :: selDescrs n l else selDescrs n l := by
  by_cases hx : Nat.land x.1 n = x.1 <;>
    simp [selDescrs, List.filter_cons, hx]

theorem sensor_fold_nonempty (n : Nat) :
    ∀ (l : List (Nat × String)) (descr : String), 0 < descr.length →
      (∀ x ∈ l, 0 < x.2.length) →
      l.foldl (sensor_flag_step n) descr = descr ++ commaPre (selDescrs n l) := by
  intro l
  induction l with
  | nil => intro descr _ _; simp [selDescrs, commaPre, String.append_empty]
  | cons x l ih =>
      intro descr hd hl
      rw [List.foldl_cons, selDescrs_cons]
      by_cases hx : Nat.land x.1 n = x.1
      · have hstep : sensor_flag_step n descr x = descr ++ ", " ++ x.2 := by
          simp [sensor_flag_step, hx, hd]
        have hlen : 0 < (descr ++ ", " ++ x.2).length := by
          rw [String.length_append, String.length_append]
          omega
        rw [hstep, if_pos hx, ih _ hlen (fun y hy => hl y (List.mem_cons_of_mem x hy)),
            commaPre, String.append_assoc, String.append_assoc, String.append_assoc]
      · have hstep : sensor_flag_step n descr x = descr := by
          simp [sensor_flag_step, hx]
        rw [hstep, if_neg hx,
            ih _ hd (fun y hy => hl y (List.mem_cons_of_mem x hy))]

theorem sensor_fold_empty (n : Nat) :
    ∀ l : List (Nat × String), (∀ x ∈ l, 0 < x.2.length) →
      l.foldl (sensor_flag_step n) "" = joinCommaSep (selDescrs n l) := by
  intro l
  induction l with
  | nil => intro _; rfl
  | cons x l ih =>
      intro hl
      rw [List.foldl_cons, selDescrs_cons]
      by_cases hx : Nat.land x.1 n = x.1
      · have hstep : sensor_flag_step n "" x = x.2 := by
          simp [sensor_flag_step, hx, String.empty_append]
        rw [hstep, if_pos hx, joinCommaSep_cons,
            sensor_fold_nonempty n l x.2 (hl x (List.mem_cons_self x l))
              (fun y hy => hl y (List.mem_cons_of_mem x hy))]
      · have hstep : sensor_flag_step n "" x = "" := by
          simp [sensor_flag_step, hx]
        rw [hstep, if_neg hx, ih (fun y hy => hl y (List.mem_cons_of_mem x hy))]

/-- C4: `decode_sensor_status 0` is exactly `"sensors ok"`; on any non-zero
mask it returns the descriptions of every set defined bit, in ascending bit
(table) order, joined by `", "`; in particular `0x009` yields both
`"lightning failed"` and `"pressure failed"`, comma-joined, and multiple
simultaneously-set bits are all reported. -/
theorem c4_decode_sensor_status :
    decode_sensor_status 0 = "sensors ok" ∧
    (∀ n : Nat, n ≠ 0 →
      decode_sensor_status n =
        joinCommaSep (selDescrs n decode_sensor_status_err_text)) ∧
    decode_sensor_status 0x009 = "lightning failed, pressure failed" ∧
    selDescrs 0x009 decode_sensor_status_err_text =
      ["lightning failed", "pressure failed"] := by
  refine ⟨rfl, ?_, by decide, by decide⟩
  intro n hn
  have hne : ¬(decode_sensor_status_ok_text.1 = n) := by
    simpa [decode_sensor_status_ok_text] using (Ne.symm hn)
  rw [decode_sensor_status, if_neg hne,
      sensor_fold_empty n decode_sensor_status_err_text (by decide)]

/-- C4 witness: the universally quantified part evaluated at the non-zero
mask 9 (bits 0 and 3 set). -/
theorem c4_decode_sensor_status_witness :
    (9 : Nat) ≠ 0 ∧
      decode_sensor_status 9 =
        joinCommaSep (selDescrs 9 decode_sensor_status_err_text) :=
  ⟨by decide, c4_decode_sensor_status.2.1 9 (by decide)⟩

/-- C9: on a non-zero mask all of whose set bits lie outside the nine
defined flag bits (mask AND 0x1FF = 0, e.g. 0x200), `decode_sensor_status`
returns the empty string — neither `"sensors ok"` nor any description. -/
theorem c9_undefined_bits_give_empty (n : Nat) (h0 : n ≠ 0)
    (h : Nat.land 511 n = 0) : decode_sensor_status n = "" := by
  have key : ∀ b : Nat, Nat.land b 511 = b → Nat.land b n = 0 := by
    intro b hb
    calc Nat.land b n = Nat.land (Nat.land b 511) n := by rw [hb]
      _ = Nat.land b (Nat.land 511 n) := Nat.land_assoc b 511 n
      _ = Nat.land b 0 := by rw [h]
      _ = 0 := Nat.and_zero b
  have hne : ¬(decode_sensor_status_ok_text.1 = n) := by
    simpa [decode_sensor_status_ok_text] using (Ne.symm h0)
  have sel0 : selDescrs n decode_sensor_status_err_text = [] := by
    simp [selDescrs, decode_sensor_status_err_text, List.filter,
      key 1 (by decide), key 2 (by decide), key 4 (by decide),
      key 8 (by decide), key 16 (by decide), key 32 (by decide),
      key 64 (by decide), key 128 (by decide), key 256 (by decide)]
  rw [decode_sensor_status, if_neg hne,
      sensor_fold_empty n decode_sensor_status_err_text (by decide), sel0]
  rfl

/-- C9 witness: evaluated at the mask 0x200. -/
theorem c9_undefined_bits_give_empty_witness :
    ((512 : Nat) ≠ 0 ∧ Nat.land 511 512 = 0) ∧ decode_sensor_status 512 = "" :=
  ⟨⟨by decide, by decide⟩,
    c9_undefined_bits_give_empty 512 (by decide) (by decide)⟩

theorem report_it_typed (args : Args) (data : Envelope) (t : String)
    (hty : dictGet data "type" = .ok (.scalar (.str t))) :
    report_it args data = dispatch_type args t data := by
  unfold report_it
  rw [hty]

theorem dispatch_evt_precip (args : Args) (data : Envelope) :
    dispatch_type args "evt_precip" data = process_evt_precip args data := by
  simp [dispatch_type]

theorem dispatch_evt_strike (args : Args) (data : Envelope) :
    dispatch_type args "evt_strike" data = process_evt_strike args data := by
  simp [dispatch_type]

theorem dispatch_rapid_wind (args : Args) (data : Envelope) :
    dispatch_type args "rapid_wind" data = process_rapid_wind args data := by
  simp [dispatch_type]

theorem dispatch_obs_air (args : Args) (data : Envelope) :
    dispatch_type args "obs_air" data = process_obs_air args data := by
  simp [dispatch_type]

theorem dispatch_obs_sky (args : Args) (data : Envelope) :
    dispatch_type args "obs_sky" data = process_obs_sky args data := by
  simp [dispatch_type]

theorem dispatch_obs_st (args : Args) (data : Envelope) :
    dispatch_type args "obs_st" data = process_obs_st args data := by
  simp [dispatch_type]

theorem dispatch_device_status (args : Args) (data : Envelope) :
    dispatch_type args "device_status" data = process_device_status args data := by
  simp [dispatch_type]

theorem dispatch_hub_status (args : Args) (data : Envelope) :
    dispatch_type args "hub_status" data = process_hub_status args data := by
  simp [dispatch_type]

theorem dispatch_wind_debug (args : Args) (data : Envelope) :
    dispatch_type args "wind_debug" data = process_wind_debug args data := by
  simp [dispatch_type]

theorem dispatch_light_debug (args : Args) (data : Envelope) :
    dispatch_type args "light_debug" data = process_light_debug args data := by
  simp [dispatch_type]

theorem dispatch_rain_debug (args : Args) (data : Envelope) :
    dispatch_type args "rain_debug" data = process_rain_debug args data := by
  simp [dispatch_type]

theorem filteredOut_code_or (args : Args) (t : String) :
    filteredOut_code args t =
      ((truthy args.exclude && pyIn t (optStr args.exclude)) ||
        (truthy args.limit && !(pyIn t (optStr args.limit)))) := by
  unfold filteredOut_code
  by_cases h1 : (truthy args.exclude && pyIn t (optStr args.exclude)) = true <;>
    by_cases h2 : (truthy args.limit && !(pyIn t (optStr args.limit))) = true <;>
      simp [h1, h2]

theorem filteredOut_spec_or (args : Args) (t : String) :
    filteredOut_spec args t =
      ((truthy args.limit && !(pyIn t (optStr args.limit))) ||
        (truthy args.exclude && pyIn t (optStr args.exclude))) := by
  unfold filteredOut_spec
  by_cases h1 : (truthy args.limit && !(pyIn t (optStr args.limit))) = true <;>
    by_cases h2 : (truthy args.exclude && pyIn t (optStr args.exclude)) = true <;>
      simp [h1, h2]

theorem filteredOut_code_eq_spec (args : Args) (t : String) :
    filteredOut_code args t = filteredOut_spec args t := by
  rw [filteredOut_code_or, filteredOut_spec_or, Bool.or_comm]

theorem skip_shape (c1 c2 : Bool) (rest : List Effect × Except PyErr Unit)
    (h : c1 = true ∨ c2 = true) :
    (if c1 = true then (([] : List Effect), Except.ok ())
     else if c2 = true then ([], Except.ok ()) else rest) =
      ([], Except.ok ()) := by
  rcases h with h | h
  · rw [if_pos h]
  · by_cases h1 : c1 = true
    · rw [if_pos h1]
    · rw [if_neg h1, if_pos h]

theorem dispatch_skip (args : Args) (t : String) (data : Envelope)
    (hrec : t ∈ recognized_types) (hskip : filteredOut_code args t = true) :
    dispatch_type args t data = ([], .ok ()) := by
  have horn : (truthy args.exclude && pyIn t (optStr args.exclude)) = true ∨
      (truthy args.limit && !(pyIn t (optStr args.limit))) = true := by
    rw [filteredOut_code_or] at hskip
    simpa using hskip
  have hrec' : t = "evt_precip" ∨ t = "evt_strike" ∨ t = "rapid_wind" ∨
      t = "obs_air" ∨ t = "obs_sky" ∨ t = "obs_st" ∨ t = "device_status" ∨
      t = "hub_status" ∨ t = "wind_debug" ∨ t = "light_debug" ∨
      t = "rain_debug" := by
    simpa [recognized_types] using hrec
  rcases hrec' with rfl | rfl | rfl | rfl | rfl | rfl | rfl | rfl | rfl | rfl | rfl
  · rw [dispatch_evt_precip]; unfold process_evt_precip; exact skip_shape _ _ _ horn
  · rw [dispatch_evt_strike]; unfold process_evt_strike; exact skip_shape _ _ _ horn
  · rw [dispatch_rapid_wind]; unfold process_rapid_wind; exact skip_shape _ _ _ horn
  · rw [dispatch_obs_air]; unfold process_obs_air; exact skip_shape _ _ _ horn
  · rw [dispatch_obs_sky]; unfold process_obs_sky; exact skip_shape _ _ _ horn
  · rw [dispatch_obs_st]; unfold process_obs_st; exact skip_shape _ _ _ horn
  · rw [dispatch_device_status]; unfold process_device_status; exact skip_shape _ _ _ horn
  · rw [dispatch_hub_status]; unfold process_hub_status; exact skip_shape _ _ _ horn
  · rw [dispatch_wind_debug]; unfold process_wind_debug; exact skip_shape _ _ _ horn
  · rw [dispatch_light_debug]; unfold process_light_debug; exact skip_shape _ _ _ horn
  · rw [dispatch_rain_debug]; unfold process_rain_debug; exact skip_shape _ _ _ horn

/-- C3: for every decoded record (recognised type `t`): a configured
non-empty limit that does not contain `t` suppresses all side effects; a
configured exclude list containing `t` likewise; the composite decision
equals the limit-first-then-exclude composition (which, both filters being
pure skips, coincides with the exclude-first order of the source). -/
theorem c3_limit_exclude_filters (args : Args) (data : Envelope) (t : String)
    (hrec : t ∈ recognized_types)
    (hty : dictGet data "type" = .ok (.scalar (.str t))) :
    (truthy args.limit = true → pyIn t (optStr args.limit) = false →
      report_it args data = ([], .ok ())) ∧
    (truthy args.exclude = true → pyIn t (optStr args.exclude) = true →
      report_it args data = ([], .ok ())) ∧
    (filteredOut_spec args t = true → report_it args data = ([], .ok ())) ∧
    filteredOut_code args t = filteredOut_spec args t := by
  refine ⟨?_, ?_, ?_, filteredOut_code_eq_spec args t⟩
  · intro h1 h2
    rw [report_it_typed args data t hty]
    refine dispatch_skip args t data hrec ?_
    rw [filteredOut_code_or]
    simp [h1, h2]
  · intro h1 h2
    rw [report_it_typed args data t hty]
    refine dispatch_skip args t data hrec ?_
    rw [filteredOut_code_or]
    simp [h1, h2]
  · intro h
    rw [report_it_typed args data t hty]
    exact dispatch_skip args t data hrec
      ((filteredOut_code_eq_spec args t).trans h)

/-- C3 witness: with `--limit obs_air` and every sink enabled, a
`rapid_wind` envelope produces no effects at all. -/
theorem c3_limit_exclude_filters_witness :
    report_it argsLimitObsAir envRapidWind = ([], .ok ()) :=
  (c3_limit_exclude_filters argsLimitObsAir envRapidWind "rapid_wind"
      (by decide) rfl).1 (by decide) (by decide)

/-- C10: a debug-type envelope (`wind_debug`, `light_debug`, `rain_debug`)
that passes both filters produces at most the optional raw print — never an
MQTT or InfluxDB publish, even when those sinks are enabled. -/
theorem c10_debug_types_raw_only (args : Args) (data : Envelope) (t : String)
    (hdbg : t ∈ ["wind_debug", "light_debug", "rain_debug"])
    (hty : dictGet data "type" = .ok (.scalar (.str t)))
    (hpass : filteredOut_code args t = false) :
    report_it args data =
      ((if args.raw = true then [Effect.rawPrint data] else []), .ok ()) := by
  have hg : (truthy args.exclude && pyIn t (optStr args.exclude)) = false ∧
      (truthy args.limit && !(pyIn t (optStr args.limit))) = false := by
    rw [filteredOut_code_or] at hpass
    simpa using hpass
  rw [report_it_typed args data t hty]
  have hdbg' : t = "wind_debug" ∨ t = "light_debug" ∨ t = "rain_debug" := by
    simpa using hdbg
  rcases hdbg' with rfl | rfl | rfl
  · rw [dispatch_wind_debug]; unfold process_wind_debug
    rw [if_neg (by simp [hg.1]), if_neg (by simp [hg.2])]
  · rw [dispatch_light_debug]; unfold process_light_debug
    rw [if_neg (by simp [hg.1]), if_neg (by simp [hg.2])]
  · rw [dispatch_rain_debug]; unfold process_rain_debug
    rw [if_neg (by simp [hg.1]), if_neg (by simp [hg.2])]

/-- C10 witness: a `light_debug` envelope with raw printing, MQTT and
InfluxDB all enabled yields exactly the raw print. -/
theorem c10_debug_types_raw_only_witness :
    report_it argsRawSinks envLightDebug =
      ([Effect.rawPrint envLightDebug], .ok ()) :=
  c10_debug_types_raw_only argsRawSinks envLightDebug "light_debug"
    (by decide) rfl (by decide)

/-- C1: the claim is half right and the code contradicts its own comment.
An envelope with an unrecognised `type` string does reach the error report
(printed, and syslogged under `--syslog`, with the full envelope attached)
— but an envelope with no `type` field raises `KeyError` at the first
comparison in `report_it`, which the bare `except: pass` of `reporter_task`
swallows: nothing is printed or logged, despite the source comment at line
754 claiming that the `else` branch also catches a missing `type`. -/
theorem c1_missing_type_silently_dropped :
    report_it argsSyslog envNoType = ([], .error (.keyError "type")) ∧
    consume_one argsSyslog envNoType = [] ∧
    report_it argsSyslog envUnknownType =
      ([Effect.unknownTypePrint envUnknownType,
        Effect.syslogUnknown envUnknownType], .ok ()) := by
  exact ⟨rfl, rfl, rfl⟩

theorem pipe_invariant (s u : PipeState) (h : PipeReach s u) :
    u.processed ++ (u.queue ++ u.pending) =
      s.processed ++ (s.queue ++ s.pending) := by
  induction h with
  | refl s => rfl
  | step hst _ ih =>
      rw [ih]
      cases hst with
      | put e p q r => simp
      | get e p q r => simp

/-- C6: in every state reachable from enqueuing E1, E2, E3 (under any
interleaving of listener puts and consumer gets), the consumer
has processed a prefix of [E1, E2, E3] in exactly that order, and once the
pipeline is drained it has processed exactly [E1, E2, E3]. -/
theorem c6_fifo_order (E1 E2 E3 : Envelope) (s : PipeState)
    (h : PipeReach ⟨[E1, E2, E3], [], []⟩ s) :
    s.processed ++ (s.queue ++ s.pending) = [E1, E2, E3] ∧
    s.processed <+: [E1, E2, E3] ∧
    (s.pending = [] → s.queue = [] → s.processed = [E1, E2, E3]) := by
  have hinv := pipe_invariant _ s h
  simp only [List.nil_append] at hinv
  refine ⟨hinv, ⟨s.queue ++ s.pending, hinv⟩, ?_⟩
  intro hp hq
  rw [hp, hq] at hinv
  simpa using hinv

/-- C6 witness: a concrete full run over three distinct envelopes ends with
them processed in enqueue order. -/
theorem c6_fifo_order_witness :
    (⟨[], [], [envA, envB, envC]⟩ : PipeState).processed =
      [envA, envB, envC] :=
  (c6_fifo_order envA envB envC ⟨[], [], [envA, envB, envC]⟩
      (.step (.put envA [envB, envC] [] [])
        (.step (.get envA [envB, envC] [] [])
          (.step (.put envB [envC] [] [envA])
            (.step (.get envB [envC] [] [envA])
              (.step (.put envC [] [] [envA, envB])
                (.step (.get envC [] [] [envA, envB])
                  (.refl _)))))))).2.2 rfl rfl

theorem pyIn_of_startsWith (s pat : String)
    (h : strStartsWith s pat = true) : pyIn pat s = true := by
  unfold strStartsWith at h
  unfold pyIn
  cases hs : s.toList with
  | nil =>
      rw [hs] at h
      cases hp : pat.toList with
      | nil => simp [charsContain, hp]
      | cons c cs => rw [hp] at h; exact absurd h (by simp [charsStartWith])
  | cons b t =>
      rw [hs] at h
      rw [charsContain, h, Bool.true_or]

/-- C2 counterexample: the serial number `"XXAR-1"` begins with none of
`"AR-"`, `"SK-"`, `"ST-"`, so by the claim its classification should be the
unknown one; the code classifies it as `"air"` (substring containment, not
prefix), and the resulting MQTT status topic is `wf/status/air`. -/
theorem c2_counterexample :
    classify_device "XXAR-1" = "air" ∧
    strStartsWith "XXAR-1" "AR-" = false ∧
    strStartsWith "XXAR-1" "SK-" = false ∧
    strStartsWith "XXAR-1" "ST-" = false ∧
    classify_device "XXAR-1" ≠ "unknown_type" ∧
    (report_it argsMqtt envDeviceWeirdSerial).1.head? =
      some (Effect.mqttNotice "mqtt" "wf/status/air") := by
  exact ⟨by decide, by decide, by decide, by decide, by decide, rfl⟩

/-- C2 (amended): `device_kind` is decided by substring containment tested
in the order `AR-` → air, `SK-` → sky, `ST-` → tempest, else
`"unknown_type"`.  In particular a serial beginning with `"AR-"` is air; one
beginning with `"SK-"` (resp. `"ST-"`) is sky (resp. tempest) provided no
earlier marker occurs elsewhere in the string; a serial containing none of
the markers is `"unknown_type"`; and the classification is total on strings
— it never throws and always returns one of the four names. -/
theorem c2_device_kind_containment (s : String) :
    (strStartsWith s "AR-" = true → classify_device s = "air") ∧
    (pyIn "AR-" s = false → strStartsWith s "SK-" = true →
      classify_device s = "sky") ∧
    (pyIn "AR-" s = false → pyIn "SK-" s = false →
      strStartsWith s "ST-" = true → classify_device s = "tempest") ∧
    (pyIn "AR-" s = false → pyIn "SK-" s = false → pyIn "ST-" s = false →
      classify_device s = "unknown_type") ∧
    (classify_device s = "air" ∨ classify_device s = "sky" ∨
      classify_device s = "tempest" ∨ classify_device s = "unknown_type") ∧
    device_type_of (.scalar (.str s)) = .ok (classify_device s) := by
  refine ⟨?_, ?_, ?_, ?_, ?_, ?_⟩
  · intro h
    simp [classify_device, pyIn_of_startsWith s "AR-" h]
  · intro h1 h2
    simp [classify_device, h1, pyIn_of_startsWith s "SK-" h2]
  · intro h1 h2 h3
    simp [classify_device, h1, h2, pyIn_of_startsWith s "ST-" h3]
  · intro h1 h2 h3
    simp [classify_device, h1, h2, h3]
  · unfold classify_device
    split_ifs <;> simp
  · unfold device_type_of pyInVal classify_device
    by_cases h1 : pyIn "AR-" s = true
    · simp [h1]; rfl
    · by_cases h2 : pyIn "SK-" s = true
      · simp [h1, h2]; rfl
      · by_cases h3 : pyIn "ST-" s = true
        · simp [h1, h2, h3]; rfl
        · simp [h1, h2, h3]; rfl

/-- C2 witness: the prefix cases evaluated at concrete serial numbers. -/
theorem c2_device_kind_containment_witness :
    (strStartsWith "AR-00001234" "AR-" = true ∧
      classify_device "AR-00001234" = "air") ∧
    (pyIn "AR-" "SK-00001234" = false ∧
      strStartsWith "SK-00001234" "SK-" = true ∧
      classify_device "SK-00001234" = "sky") :=
  ⟨⟨by decide, (c2_device_kind_containment "AR-00001234").1 (by decide)⟩,
    ⟨by decide, by decide,
      (c2_device_kind_containment "SK-00001234").2.1 (by decide) (by decide)⟩⟩

/-- C7: the end-to-end `rapid_wind` envelope decodes to the record with
timestamp 1600000000, speed 2.5 m/s and direction 180°, and with the MQTT
sink enabled (no filters) it is published to topic `wf/rapid_wind` with a
sorted-keys JSON body holding exactly those three keys. -/
theorem c7_rapid_wind_end_to_end :
    build_rapid_wind envRapidWind =
      .ok (pvStr "ST-00001234",
        [("timestamp", pvNum 1600000000), ("speed", pvNum 2.5),
         ("direction", pvNum 180)]) ∧
    report_it argsMqtt envRapidWind =
      ([Effect.mqttNotice "mqtt" "wf/rapid_wind",
        Effect.mqttSend "wf/rapid_wind"
          [("direction", pvNum 180), ("speed", pvNum 2.5),
           ("timestamp", pvNum 1600000000)]], .ok ()) ∧
    [("direction", pvNum 180), ("speed", pvNum 2.5),
      ("timestamp", pvNum 1600000000)].map Prod.fst =
      ["direction", "speed", "timestamp"] := by
  exact ⟨rfl, rfl, rfl⟩

/-- C8 counterexample: an `obs_air` record written to InfluxDB gets
measurement `"wf/obs_air"` — the MQTT topic, not the record-kind identifier
`"obs_air"` — and its series fields are the whole record, `timestamp`
included, contrary to the claimed "all fields other than the timestamp". -/
theorem c8_counterexample :
    influxPoints (report_it argsInflux envObsAir).1 =
      [⟨"wf/obs_air", pvNum 1600000000, recObsAir, "s"⟩] ∧
    "wf/obs_air" ≠ "obs_air" ∧
    "timestamp" ∈ recObsAir.map Prod.fst := by
  exact ⟨rfl, by decide, by decide⟩

/-- C8 (amended): `influxdb_publish` emits exactly one point per record;
its measurement is the string its caller passes — the full MQTT topic
(e.g. `wf/obs_air`) for every kind except `device_status`, which passes the
literal `"device_status"`; its time is the `timestamp` field of the record,
written at one-second precision; and its fields are all of the record
fields, the timestamp included. -/
theorem c8_influx_point_shape (args : Args) (event : String)
    (record : Record) (ts : PVal)
    (hts : dictGet record "timestamp" = .ok ts) :
    influxdb_publish args event record =
      (if args.verbose = true then [Effect.influxNotice event] else []) ++
        [Effect.influxPub ⟨event, ts, record, "s"⟩] ∧
    influxPoints (influxdb_publish args event record) =
      [⟨event, ts, record, "s"⟩] ∧
    influxPoints (report_it argsInflux envObsAir).1 =
      [⟨"wf/obs_air", pvNum 1600000000, recObsAir, "s"⟩] ∧
    influxPoints (report_it argsInflux envDeviceStatus).1 =
      [⟨"device_status", pvNum 1600000000, recDeviceStatus, "s"⟩] := by
  have h1 : influxdb_publish args event record =
      (if args.verbose = true then [Effect.influxNotice event] else []) ++
        [Effect.influxPub ⟨event, ts, record, "s"⟩] := by
    unfold influxdb_publish
    rw [hts]
  refine ⟨h1, ?_, rfl, rfl⟩
  rw [h1]
  cases hv : args.verbose <;> simp [influxPoints]

/-- C8 witness: the point shape evaluated on the concrete `obs_air` record. -/
theorem c8_influx_point_shape_witness :
    influxdb_publish argsInflux "wf/obs_air" recObsAir =
      [Effect.influxPub ⟨"wf/obs_air", pvNum 1600000000, recObsAir, "s"⟩] :=
  (c8_influx_point_shape argsInflux "wf/obs_air" recObsAir
      (pvNum 1600000000) rfl).1

theorem obs_air_fields_short (row : List Scalar) (h : row.length < 8) :
    obs_air_fields (.arr1 row) = .error .indexError := by
  rcases row with _ | ⟨a0, row⟩; · rfl
  rcases row with _ | ⟨a1, row⟩; · rfl
  rcases row with _ | ⟨a2, row⟩; · rfl
  rcases row with _ | ⟨a3, row⟩; · rfl
  rcases row with _ | ⟨a4, row⟩; · rfl
  rcases row with _ | ⟨a5, row⟩; · rfl
  rcases row with _ | ⟨a6, row⟩; · rfl
  rcases row with _ | ⟨a7, row⟩; · rfl
  exfalso
  simp [List.length_cons] at h
  omega

theorem obs_sky_fields_short (row : List Scalar) (h : row.length < 14) :
    obs_sky_fields (.arr1 row) = .error .indexError := by
  rcases row with _ | ⟨a0, row⟩; · rfl
  rcases row with _ | ⟨a1, row⟩; · rfl
  rcases row with _ | ⟨a2, row⟩; · rfl
  rcases row with _ | ⟨a3, row⟩; · rfl
  rcases row with _ | ⟨a4, row⟩; · rfl
  rcases row with _ | ⟨a5, row⟩; · rfl
  rcases row with _ | ⟨a6, row⟩; · rfl
  rcases row with _ | ⟨a7, row⟩; · rfl
  rcases row with _ | ⟨a8, row⟩; · rfl
  rcases row with _ | ⟨a9, row⟩; · rfl
  rcases row with _ | ⟨a10, row⟩; · rfl
  rcases row with _ | ⟨a11, row⟩; · rfl
  rcases row with _ | ⟨a12, row⟩; · rfl
  rcases row with _ | ⟨a13, row⟩; · rfl
  exfalso
  simp [List.length_cons] at h
  omega

theorem obs_st_fields_short (row : List Scalar) (h : row.length < 18) :
    obs_st_fields (.arr1 row) = .error .indexError := by
  rcases row with _ | ⟨a0, row⟩; · rfl
  rcases row with _ | ⟨a1, row⟩; · rfl
  rcases row with _ | ⟨a2, row⟩; · rfl
  rcases row with _ | ⟨a3, row⟩; · rfl
  rcases row with _ | ⟨a4, row⟩; · rfl
  rcases row with _ | ⟨a5, row⟩; · rfl
  rcases row with _ | ⟨a6, row⟩; · rfl
  rcases row with _ | ⟨a7, row⟩; · rfl
  rcases row with _ | ⟨a8, row⟩; · rfl
  rcases row with _ | ⟨a9, row⟩; · rfl
  rcases row with _ | ⟨a10, row⟩; · rfl
  rcases row with _ | ⟨a11, row⟩; · rfl
  rcases row with _ | ⟨a12, row⟩; · rfl
  rcases row with _ | ⟨a13, row⟩; · rfl
  rcases row with _ | ⟨a14, row⟩; · rfl
  rcases row with _ | ⟨a15, row⟩; · rfl
  rcases row with _ | ⟨a16, row⟩; · rfl
  rcases row with _ | ⟨a17, row⟩; · rfl
  exfalso
  simp [List.length_cons] at h
  omega

theorem exbind_ok {α β : Type} (a : α) (f : α → Except PyErr β) :
    (Except.ok a >>= f) = f a := rfl

theorem exbind_err {α β : Type} (e : PyErr) (f : α → Except PyErr β) :
    ((Except.error e : Except PyErr α) >>= f) = Except.error e := rfl

theorem build_obs_air_fails (data : Envelope) (sv : PVal)
    (row : List Scalar) (rows : List (List Scalar))
    (hsv : dictGet data "serial_number" = .ok sv)
    (hobs : dictGet data "obs" = .ok (.arr2 (row :: rows)))
    (h : row.length < 8) : build_obs_air data = .error .indexError := by
  unfold build_obs_air
  simp only [hsv, hobs, exbind_ok, PVal.index, List.getElem?_cons_zero,
    obs_air_fields_short row h, exbind_err]

theorem build_obs_sky_fails (data : Envelope) (sv : PVal)
    (row : List Scalar) (rows : List (List Scalar))
    (hsv : dictGet data "serial_number" = .ok sv)
    (hobs : dictGet data "obs" = .ok (.arr2 (row :: rows)))
    (h : row.length < 14) : build_obs_sky data = .error .indexError := by
  unfold build_obs_sky
  simp only [hsv, hobs, exbind_ok, PVal.index, List.getElem?_cons_zero,
    obs_sky_fields_short row h, exbind_err]

theorem build_obs_st_fails (data : Envelope) (sv : PVal)
    (row : List Scalar) (rows : List (List Scalar))
    (hsv : dictGet data "serial_number" = .ok sv)
    (hobs : dictGet data "obs" = .ok (.arr2 (row :: rows)))
    (h : row.length < 18) : build_obs_st data = .error .indexError := by
  unfold build_obs_st
  simp only [hsv, hobs, exbind_ok, PVal.index, List.getElem?_cons_zero,
    obs_st_fields_short row h, exbind_err]

/-- C5 counterexample: an `obs_st` envelope whose first inner sequence has
one element of the required eighteen does fail to decode — but with raw
printing enabled the raw console sink has already received the envelope
before the failure, so "no sink receives any fields from that envelope" is
not literally true. -/
theorem c5_counterexample :
    report_it argsRawSinks envShortObsSt =
      ([Effect.rawPrint envShortObsSt], .error .indexError) ∧
    ([Effect.rawPrint envShortObsSt] : List Effect) ≠ [] := by
  exact ⟨rfl, by simp⟩

/-- C5 (amended): for each observation variant, an envelope whose first
inner sequence is shorter than the variant requires is a decode failure
with no partial record: the decoded print, the MQTT publish, and the
InfluxDB write all receive nothing — the only possible effect is the
optional raw print of the raw envelope, which precedes decoding; the
raised `IndexError` is confined to the consumer stage (`reporter_task`
swallows it), and the remaining queued envelopes are drained normally. -/
theorem c5_short_obs_no_partial_record (args : Args) (data : Envelope)
    (sv : PVal) (row : List Scalar) (rows : List (List Scalar))
    (hsv : dictGet data "serial_number" = .ok sv)
    (hobs : dictGet data "obs" = .ok (.arr2 (row :: rows))) :
    (dictGet data "type" = .ok (pvStr "obs_air") →
      filteredOut_code args "obs_air" = false → row.length < 8 →
      report_it args data =
        ((if args.raw = true then [Effect.rawPrint data] else []),
          .error .indexError)) ∧
    (dictGet data "type" = .ok (pvStr "obs_sky") →
      filteredOut_code args "obs_sky" = false → row.length < 14 →
      report_it args data =
        ((if args.raw = true then [Effect.rawPrint data] else []),
          .error .indexError)) ∧
    (dictGet data "type" = .ok (pvStr "obs_st") →
      filteredOut_code args "obs_st" = false → row.length < 18 →
      report_it args data =
        ((if args.raw = true then [Effect.rawPrint data] else []),
          .error .indexError)) ∧
    (∀ rest : List Envelope,
      drain args (data :: rest) = consume_one args data ++ drain args rest) := by
  refine ⟨?_, ?_, ?_, fun rest => rfl⟩
  · intro hty hpass hshort
    have hg : (truthy args.exclude && pyIn "obs_air" (optStr args.exclude)) = false ∧
        (truthy args.limit && !(pyIn "obs_air" (optStr args.limit))) = false := by
      rw [filteredOut_code_or] at hpass
      simpa using hpass
    have hb := build_obs_air_fails data sv row rows hsv hobs hshort
    rw [report_it_typed args data "obs_air" hty, dispatch_obs_air]
    simp [process_obs_air, hg.1, hg.2, hb]
  · intro hty hpass hshort
    have hg : (truthy args.exclude && pyIn "obs_sky" (optStr args.exclude)) = false ∧
        (truthy args.limit && !(pyIn "obs_sky" (optStr args.limit))) = false := by
      rw [filteredOut_code_or] at hpass
      simpa using hpass
    have hb := build_obs_sky_fails data sv row rows hsv hobs hshort
    rw [report_it_typed args data "obs_sky" hty, dispatch_obs_sky]
    simp [process_obs_sky, hg.1, hg.2, hb]
  · intro hty hpass hshort
    have hg : (truthy args.exclude && pyIn "obs_st" (optStr args.exclude)) = false ∧
        (truthy args.limit && !(pyIn "obs_st" (optStr args.limit))) = false := by
      rw [filteredOut_code_or] at hpass
      simpa using hpass
    have hb := build_obs_st_fails data sv row rows hsv hobs hshort
    rw [report_it_typed args data "obs_st" hty, dispatch_obs_st]
    simp [process_obs_st, hg.1, hg.2, hb]

/-- C5 witness: the amended statement evaluated on the short `obs_st`
envelope with raw printing and both publishing sinks enabled. -/
theorem c5_short_obs_no_partial_record_witness :
    report_it argsRawSinks envShortObsSt =
      ([Effect.rawPrint envShortObsSt], .error .indexError) ∧
    drain argsRawSinks (envShortObsSt :: [envRapidWind]) =
      consume_one argsRawSinks envShortObsSt ++
        drain argsRawSinks [envRapidWind] :=
  ⟨((c5_short_obs_no_partial_record argsRawSinks envShortObsSt
        (pvStr "ST-00001234") [Scalar.num 1600000000] [] rfl rfl).2.2.1
      rfl (by decide) (by decide)),
    ((c5_short_obs_no_partial_record argsRawSinks envShortObsSt
        (pvStr "ST-00001234") [Scalar.num 1600000000] [] rfl rfl).2.2.2
      [envRapidWind])⟩
